import Mathlib

/-!
Shallow embedding of the Kubernetes-workloads dashboard UI logic
(`src/WebUI/WorkLoads/DeploymentsTable.tsx` and the `WorkloadsPivot`
component), together with proofs of the specification claims about it.

Kubernetes API objects are embedded as plain structures holding only the
fields the code reads.  TypeScript `string | undefined` becomes
`Option String`, nullable numeric counts become `Option Nat`, timestamps
become `Option Int` (milliseconds); `new Date().getTime()` at sort time is
modelled by an explicit `now : Int` parameter.
-/

/-- An owner reference (`V1OwnerReference`): only the `uid` field is read. -/
structure V1OwnerReference where
  uid : String
deriving DecidableEq, Repr

/-- Object metadata (`V1ObjectMeta`); `namespace` is a Lean keyword, so the
field is spelled `namespace'`.  An `undefined` `ownerReferences` array is
embedded as `[]` (the code guards with `ownerReferences && length > 0`,
which rejects both). -/
structure V1ObjectMeta where
  name : String := ""
  namespace' : String := ""
  uid : String := ""
  annotations : List (String × String) := []
  ownerReferences : List V1OwnerReference := []
  creationTimestamp : Option Int := none
deriving DecidableEq, Repr

/-- A deployment (`V1Deployment`): only its metadata is read. -/
structure V1Deployment where
  metadata : V1ObjectMeta
deriving DecidableEq, Repr

/-- Replica-set status: the two nullable counts read by the table. -/
structure V1ReplicaSetStatus where
  availableReplicas : Option Nat := none
  replicas : Option Nat := none
deriving DecidableEq, Repr

/-- A container: only `image` is read. -/
structure V1Container where
  image : String := ""
deriving DecidableEq, Repr

/-- Pod spec inside the replica-set template. -/
structure V1PodSpec where
  containers : List V1Container := []
deriving DecidableEq, Repr

/-- Pod template spec of a replica set. -/
structure V1PodTemplateSpec where
  spec : V1PodSpec := {}
deriving DecidableEq, Repr

/-- Replica-set spec: only `template.spec.containers` is read. -/
structure V1ReplicaSetSpec where
  template : V1PodTemplateSpec := {}
deriving DecidableEq, Repr

/-- A replica set (`V1ReplicaSet`). -/
structure V1ReplicaSet where
  metadata : V1ObjectMeta
  spec : V1ReplicaSetSpec := {}
  status : V1ReplicaSetStatus := {}
  kind : Option String := none
deriving DecidableEq, Repr

/-- `V1ReplicaSetList`: the wrapper holding `items`. -/
structure V1ReplicaSetList where
  items : List V1ReplicaSet
deriving DecidableEq, Repr

/-- `V1DeploymentList`: the wrapper holding `items`. -/
structure V1DeploymentList where
  items : List V1Deployment
deriving DecidableEq, Repr

/-- A pod; the pivot only ever asks for the length of a pod list. -/
structure V1Pod where
  metadata : V1ObjectMeta := {}
deriving DecidableEq, Repr

/-- The status indicators used by the table (`Statuses.Running` /
`Statuses.Success` of azure-devops-ui). -/
inductive StatusProps where
  | Running
  | Success
deriving DecidableEq, Repr

/-- Modelled from the spec: `SelectedItemKeys` of `../Constants` (not under
`src/`), the tag identifying the kind of a selected item; only the
replica-set tag is needed. -/
inductive SelectedItemKeys where
  | ReplicaSetKey
deriving DecidableEq, Repr

/-- Modelled from the spec: `KubeResourceType` of
`../../Contracts/KubeServiceBase` (not under `src/`), the resource-type
tags used by the type filter. -/
inductive KubeResourceType where
  | Deployments
  | DaemonSets
  | StatefulSets
  | Pods
deriving DecidableEq, Repr

/-- The view row `IDeploymentReplicaSetItem` of `Types.tsx`. -/
structure IDeploymentReplicaSetItem where
  name : Option String := none
  replicaSetName : Option String := none
  deploymentId : Option String := none
  replicaSetId : Option String := none
  pipeline : Option String := none
  pods : Option String := none
  statusProps : Option StatusProps := none
  showRowBorder : Option Bool := none
  deployment : Option V1Deployment := none
  image : String := ""
  creationTimeStamp : Option Int := none
  kind : Option String := none
deriving DecidableEq, Repr

/-- One entry of the deployment-to-replica-sets map
(`IDeploymentReplicaSetMap` of `Types.tsx`). -/
structure IDeploymentReplicaSetMap where
  deployment : V1Deployment
  replicaSets : List V1ReplicaSet
deriving DecidableEq, Repr

/-- The payload of `SelectionActions.selectItem.invoke`. -/
structure ISelectionPayload where
  item : V1ReplicaSet
  showSelectedItem : Bool
  selectedItemType : SelectedItemKeys
deriving DecidableEq, Repr

/-- JavaScript truthiness of an optional string: `undefined` and `""` are
falsy. -/
def truthyStr : Option String → Bool
  | none => false
  | some s => s ≠ ""

/-- JavaScript `toLowerCase()`, defined structurally on the character list
(so concrete instances reduce in the kernel, unlike `String.map`). -/
def toLowerCase (s : String) : String := ⟨s.data.map Char.toLower⟩

/-- The `items` of an optional list, as in `replicaSetList &&
replicaSetList.items || []`. -/
def rsItems : Option V1ReplicaSetList → List V1ReplicaSet
  | none => []
  | some l => l.items

namespace DeploymentsTable

/-- `_isReplicaSetForDeployment`: namespaces equal case-insensitively, owner
references present and non-empty, and the first owner reference's uid equals
the deployment's uid case-insensitively. -/
def _isReplicaSetForDeployment (deployment : V1Deployment) (replica : V1ReplicaSet) : Bool :=
  toLowerCase replica.metadata.namespace' == toLowerCase deployment.metadata.namespace'
    && !replica.metadata.ownerReferences.isEmpty
    && (match replica.metadata.ownerReferences.head? with
        | some o => toLowerCase o.uid == toLowerCase deployment.metadata.uid
        | none => false)

/-- `_getCreationTime`: the creation timestamp when present, otherwise the
current time (`new Date()`), passed in as `now`. -/
def _getCreationTime (now : Int) (metadata : V1ObjectMeta) : Int :=
  metadata.creationTimestamp.getD now

/-- Stable insertion step for a descending sort by `key`: the new element
stops in front of the first element whose key is not larger, so it precedes
elements of equal key coming later in the original list. -/
def insertDescBy (key : α → Int) (x : α) : List α → List α
  | [] => [x]
  | y :: ys => if key y ≤ key x then x :: y :: ys else y :: insertDescBy key x ys

/-- Stable descending sort by `key`, the behaviour guaranteed for
`Array.prototype.sort` with comparator `(a, b) => key(b) - key(a)`
(ES2019 requires sort stability). -/
def sortDescBy (key : α → Int) : List α → List α
  | [] => []
  | x :: xs => insertDescBy key x (sortDescBy key xs)

/-- `_generateDeploymentReplicaSetMap`: for each deployment, in order, the
replica sets it owns, sorted descending by creation time. -/
def _generateDeploymentReplicaSetMap (now : Int) (deploymentList : List V1Deployment)
    (replicaSetList : Option V1ReplicaSetList) : List IDeploymentReplicaSetMap :=
  deploymentList.map fun deployment =>
    let filteredReplicas : List V1ReplicaSet :=
      (rsItems replicaSetList).filter fun replica =>
        _isReplicaSetForDeployment deployment replica
    { deployment := deployment
      replicaSets := sortDescBy (fun r => _getCreationTime now r.metadata) filteredReplicas }

/-- `_getPodsText`: `"available/total"` when both counts are non-null and
the total is positive, otherwise the empty string. -/
def _getPodsText (availableReplicas replicas : Option Nat) : String :=
  match replicas, availableReplicas with
  | some r, some a => if r > 0 then toString a ++ "/" ++ toString r else ""
  | _, _ => ""

/-- `_getPodsStatusProps`: `Running` when fewer are available than desired,
`Success` otherwise, and no status when a count is null or the total is not
positive. -/
def _getPodsStatusProps (availableReplicas replicas : Option Nat) : Option StatusProps :=
  match replicas, availableReplicas with
  | some r, some a =>
    if r > 0 then some (if a < r then StatusProps.Running else StatusProps.Success) else none
  | _, _ => none

/-- JavaScript `s || d` for an optional string: `undefined` and `""` fall
back to the default. -/
def strOrDefault (s : Option String) (d : String) : String :=
  match s with
  | some v => if v = "" then d else v
  | none => d

/-- `_getDeploymentReplicaSetItem`.  `Utils.getPipelineText` lives outside
`src/` and is passed in as `getPipelineText`; the row's annotation source is
the deployment for index 0 and the replica set itself otherwise.  The
`containers[0].image` access (a runtime error on an empty array in the
original) is totalised to `""`. -/
def _getDeploymentReplicaSetItem (getPipelineText : List (String × String) → String)
    (deployment : V1Deployment) (replica : V1ReplicaSet)
    (index : Nat) (replicaSetLength : Nat) : IDeploymentReplicaSetItem :=
  let annotations : List (String × String) :=
    if index = 0 then deployment.metadata.annotations else replica.metadata.annotations
  { name := some (if index > 0 then "" else deployment.metadata.name)
    deploymentId := some deployment.metadata.uid
    replicaSetId := some replica.metadata.uid
    replicaSetName := some replica.metadata.name
    pipeline := some (getPipelineText annotations)
    pods := some (_getPodsText replica.status.availableReplicas replica.status.replicas)
    statusProps := _getPodsStatusProps replica.status.availableReplicas replica.status.replicas
    showRowBorder := some (replicaSetLength = index + 1)
    deployment := some deployment
    image := (replica.spec.template.spec.containers.head?.map V1Container.image).getD ""
    creationTimeStamp := replica.metadata.creationTimestamp
    kind := some (strOrDefault replica.kind "ReplicaSet") }

/-- `_getDeploymentReplicaSetItems`: one row per replica set, with its index
and the total length. -/
def _getDeploymentReplicaSetItems (getPipelineText : List (String × String) → String)
    (deployment : V1Deployment) (replicaSets : List V1ReplicaSet) :
    List IDeploymentReplicaSetItem :=
  replicaSets.enum.map fun p =>
    _getDeploymentReplicaSetItem getPipelineText deployment p.2 p.1 replicaSets.length

/-- `_getSelectedReplicaSet`: when both ids are truthy, the first stored
replica set whose uid matches the row's replica-set id case-insensitively
(`filteredReplica[0]`, `undefined` when none matches). -/
def _getSelectedReplicaSet (replicaSetList : Option V1ReplicaSetList)
    (selectedItem : IDeploymentReplicaSetItem) : Option V1ReplicaSet :=
  if truthyStr selectedItem.deploymentId && truthyStr selectedItem.replicaSetId then
    ((rsItems replicaSetList).filter fun replica =>
      toLowerCase replica.metadata.uid == toLowerCase (selectedItem.replicaSetId.getD "")).head?
  else
    none

/-- `_openDeploymentItem`: raises a selection event exactly when
`_getSelectedReplicaSet` resolves a replica set. -/
def _openDeploymentItem (replicaSetList : Option V1ReplicaSetList)
    (selectedItem : IDeploymentReplicaSetItem) : Option ISelectionPayload :=
  match _getSelectedReplicaSet replicaSetList selectedItem with
  | some selectedReplicaSet =>
    some { item := selectedReplicaSet
           showSelectedItem := true
           selectedItemType := SelectedItemKeys.ReplicaSetKey }
  | none => none

end DeploymentsTable

namespace WorkloadsPivot

/-- The pivot's component state (`IWorkloadsPivotState`). -/
structure IWorkloadsPivotState where
  workloadResourceSize : Int
  orphanPodsList : List V1Pod
deriving DecidableEq, Repr

/-- `_showComponent`: with a non-empty type-filter selection, show a
resource type exactly when it is selected; with an empty selection show
everything. -/
def _showComponent (selections : List KubeResourceType) (resourceType : KubeResourceType) : Bool :=
  if selections.length > 0 then selections.contains resourceType else true

/-- Which elements `_getContent` renders: the zero-data placeholder, or the
four resource tables.  Mirrors the JSX `cond && element` rendering guards. -/
structure WorkloadsContent where
  showsZeroData : Bool
  showsDeployments : Bool
  showsDaemonSets : Bool
  showsStatefulSets : Bool
  showsOrphanPods : Bool
deriving DecidableEq, Repr

/-- `_getContent`: the zero-data placeholder alone when the workload
resource size is 0; otherwise each table behind its `_showComponent` guard,
the orphan-pods table additionally requiring a non-empty orphan list. -/
def _getContent (state : IWorkloadsPivotState) (selections : List KubeResourceType) :
    WorkloadsContent :=
  if state.workloadResourceSize = 0 then
    { showsZeroData := true
      showsDeployments := false
      showsDaemonSets := false
      showsStatefulSets := false
      showsOrphanPods := false }
  else
    { showsZeroData := false
      showsDeployments := _showComponent selections KubeResourceType.Deployments
      showsDaemonSets := _showComponent selections KubeResourceType.DaemonSets
      showsStatefulSets := _showComponent selections KubeResourceType.StatefulSets
      showsOrphanPods := decide (state.orphanPodsList.length > 0)
        && _showComponent selections KubeResourceType.Pods }

/-- `_onDataFound` as a transition on the stored size: adopt the reported
size only when the stored size is not positive and the reported one is. -/
def _onDataFound (stateSize : Int) (workloadSize : Int) : Int :=
  if stateSize ≤ 0 ∧ workloadSize > 0 then workloadSize else stateSize

end WorkloadsPivot

open DeploymentsTable WorkloadsPivot

/-- C1: the association computed by `_isReplicaSetForDeployment` holds iff
the namespaces agree case-insensitively and the first owner reference's uid
equals the deployment's uid case-insensitively. -/
theorem isReplicaSetForDeployment_iff (d : V1Deployment) (r : V1ReplicaSet) :
    _isReplicaSetForDeployment d r = true ↔
      (toLowerCase r.metadata.namespace' = toLowerCase d.metadata.namespace' ∧
       ∃ o, r.metadata.ownerReferences.head? = some o ∧
         toLowerCase o.uid = toLowerCase d.metadata.uid) := by
  rcases hl : r.metadata.ownerReferences with _ | ⟨o, os⟩ <;>
    simp [_isReplicaSetForDeployment, hl]

/-- C3 counterexample: with 0 available replicas out of 1 desired, the code
shows the "running" indicator even though `0 < availableReplicas` fails, so
"running iff 0 < available < total" is false as stated. -/
theorem getPodsStatusProps_claim_counterexample :
    _getPodsStatusProps (some 0) (some 1) = some StatusProps.Running ∧ ¬ (0 < 0) :=
  ⟨rfl, by decide⟩

/-- C3 (amended): the indicator is "success" iff both counts are known, the
total is positive and available ≥ total; "running" iff both are known, the
total is positive and available < total; absent otherwise (either count
unknown or total zero). -/
theorem getPodsStatusProps_spec (a r : Option Nat) :
    (_getPodsStatusProps a r = some StatusProps.Success ↔
      ∃ av rp, a = some av ∧ r = some rp ∧ 0 < rp ∧ rp ≤ av) ∧
    (_getPodsStatusProps a r = some StatusProps.Running ↔
      ∃ av rp, a = some av ∧ r = some rp ∧ 0 < rp ∧ av < rp) ∧
    (_getPodsStatusProps a r = none ↔ a = none ∨ r = none ∨ r = some 0) := by
  cases a with
  | none => cases r <;> simp [_getPodsStatusProps]
  | some av =>
    cases r with
    | none => simp [_getPodsStatusProps]
    | some rp =>
      by_cases hrp : 0 < rp
      · by_cases hav : av < rp <;>
          simp [_getPodsStatusProps, hrp, hav] <;> omega
      · have hrp0 : rp = 0 := by omega
        subst hrp0
        simp [_getPodsStatusProps]

/-- C4: the pods text is `"available/total"` when both counts are known and
the total is positive, and the empty string when the total is zero or either
count is unknown. -/
theorem getPodsText_spec (av rp : Nat) :
    (0 < rp → _getPodsText (some av) (some rp) = toString av ++ "/" ++ toString rp) ∧
    _getPodsText (some av) (some 0) = "" ∧
    _getPodsText none (some rp) = "" ∧
    _getPodsText (some av) none = "" ∧
    _getPodsText none none = "" := by
  refine ⟨fun h => ?_, rfl, rfl, rfl, rfl⟩
  simp [_getPodsText, h]

/-- C4 witness: concrete evaluation at 3 available of 5. -/
theorem getPodsText_spec_witness :
    _getPodsText (some 3) (some 5) = toString 3 ++ "/" ++ toString 5 :=
  (getPodsText_spec 3 5).1 (by decide)

/-- C10: once the stored workload size is positive, `_onDataFound` leaves it
unchanged; it changes the state only from a non-positive value on a positive
report; and any sequence of further reports leaves a positive value fixed. -/
theorem onDataFound_latch (s r : Int) :
    (0 < s → _onDataFound s r = s) ∧
    (_onDataFound s r ≠ s → s ≤ 0 ∧ 0 < r ∧ _onDataFound s r = r) ∧
    (0 < s → ∀ rs : List Int, rs.foldl _onDataFound s = s) := by
  refine ⟨fun hs => ?_, fun hne => ?_, fun hs rs => ?_⟩
  · have h : ¬ (s ≤ 0 ∧ r > 0) := by omega
    simp [_onDataFound, h]
  · by_cases h : s ≤ 0 ∧ r > 0
    · exact ⟨h.1, h.2, by simp [_onDataFound, h]⟩
    · exact absurd (by simp [_onDataFound, h]) hne
  · induction rs with
    | nil => rfl
    | cons a as ih =>
      have hstep : _onDataFound s a = s := by
        have h : ¬ (s ≤ 0 ∧ a > 0) := by omega
        simp [_onDataFound, h]
      rw [List.foldl_cons, hstep]
      exact ih

/-- C10 witness: a positive stored size 5 survives a report of 0. -/
theorem onDataFound_latch_witness : _onDataFound 5 0 = 5 :=
  (onDataFound_latch 5 0).1 (by decide)

theorem mem_insertDescBy {key : α → Int} {x a : α} {l : List α} :
    a ∈ insertDescBy key x l ↔ a = x ∨ a ∈ l := by
  induction l with
  | nil => simp [insertDescBy]
  | cons y ys ih =>
    simp only [insertDescBy]
    split
    · simp [List.mem_cons]
    · simp only [List.mem_cons, ih]
      tauto

theorem pairwise_insertDescBy {key : α → Int} (x : α) {l : List α}
    (h : l.Pairwise fun a b => key b ≤ key a) :
    (insertDescBy key x l).Pairwise fun a b => key b ≤ key a := by
  induction l with
  | nil => simp [insertDescBy]
  | cons y ys ih =>
    rw [List.pairwise_cons] at h
    obtain ⟨hy, hys⟩ := h
    simp only [insertDescBy]
    split
    · rename_i hle
      refine List.Pairwise.cons ?_ (List.Pairwise.cons hy hys)
      intro b hb
      rcases List.mem_cons.mp hb with rfl | hb
      · exact hle
      · exact le_trans (hy b hb) hle
    · rename_i hgt
      refine List.Pairwise.cons ?_ (ih hys)
      intro b hb
      rcases mem_insertDescBy.mp hb with rfl | hb
      · exact le_of_not_le hgt
      · exact hy b hb

theorem sortDescBy_pairwise (key : α → Int) (l : List α) :
    (sortDescBy key l).Pairwise fun a b => key b ≤ key a := by
  induction l with
  | nil => simp [sortDescBy]
  | cons x xs ih => exact pairwise_insertDescBy x ih

theorem filter_insertDescBy_eq (key : α → Int) (x : α) (l : List α) :
    (insertDescBy key x l).filter (fun y => key y == key x)
      = x :: l.filter (fun y => key y == key x) := by
  induction l with
  | nil => simp [insertDescBy]
  | cons y ys ih =>
    simp only [insertDescBy]
    split
    · simp [List.filter_cons]
    · rename_i hgt
      have hne : (key y == key x) = false := by
        simp only [beq_eq_false_iff_ne, ne_eq]
        intro he
        exact hgt (le_of_eq he)
      simp [List.filter_cons, hne, ih]

theorem filter_insertDescBy_ne (key : α → Int) (x : α) (t : Int) (hne : key x ≠ t)
    (l : List α) :
    (insertDescBy key x l).filter (fun y => key y == t)
      = l.filter (fun y => key y == t) := by
  have hx : (key x == t) = false := by simpa using hne
  induction l with
  | nil => simp [insertDescBy, hx]
  | cons y ys ih =>
    simp only [insertDescBy]
    split
    · simp [List.filter_cons, hx]
    · simp [List.filter_cons, ih]

theorem sortDescBy_filter (key : α → Int) (l : List α) (t : Int) :
    (sortDescBy key l).filter (fun y => key y == t) = l.filter (fun y => key y == t) := by
  induction l with
  | nil => rfl
  | cons x xs ih =>
    simp only [sortDescBy]
    by_cases hx : key x = t
    · subst hx
      rw [filter_insertDescBy_eq, ih, List.filter_cons]
      simp
    · rw [filter_insertDescBy_ne key x t hx, ih, List.filter_cons]
      simp [hx]

theorem insertDescBy_ne_nil (key : α → Int) (x : α) (l : List α) :
    insertDescBy key x l ≠ [] := by
  cases l with
  | nil => simp [insertDescBy]
  | cons y ys =>
    simp only [insertDescBy]
    split <;> simp

theorem sortDescBy_eq_nil_iff (key : α → Int) (l : List α) :
    sortDescBy key l = [] ↔ l = [] := by
  cases l with
  | nil => simp [sortDescBy]
  | cons x xs =>
    simp only [sortDescBy]
    simpa using insertDescBy_ne_nil key x (sortDescBy key xs)

/-- Sample annotation lists for concrete instances. -/
def annA : List (String × String) := [("k", "a")]

/-- A second, distinct sample annotation list. -/
def annB : List (String × String) := [("k", "b"), ("j", "c")]

/-- A sample deployment, uppercase namespace and uid. -/
def sampleDeployment : V1Deployment :=
  { metadata := { name := "d1", namespace' := "NS", uid := "U1", annotations := annA } }

/-- A sample replica set with a given owner uid, own uid, creation time and
replica counts. -/
def mkRS (owner uid : String) (ts : Option Int) (av rp : Option Nat) : V1ReplicaSet :=
  { metadata :=
      { name := "rs-" ++ uid
        namespace' := "ns"
        uid := uid
        ownerReferences := [⟨owner⟩]
        creationTimestamp := ts
        annotations := annB }
    status := { availableReplicas := av, replicas := rp } }

/-- Newer sample replica set owned by `sampleDeployment`. -/
def rsA : V1ReplicaSet := mkRS "u1" "r1" (some 5) (some 3) (some 3)

/-- Older sample replica set owned by `sampleDeployment`. -/
def rsB : V1ReplicaSet := mkRS "u1" "r2" (some 3) (some 1) (some 3)

/-- C2: in every entry produced by `_generateDeploymentReplicaSetMap`, the
replica sets are ordered descending by `_getCreationTime`, and for each
fixed creation time the entry lists exactly the matching replica sets of the
store in their original order (the stable-sort tie rule). -/
theorem generateDeploymentReplicaSetMap_sorted (now : Int) (ds : List V1Deployment)
    (rsl : Option V1ReplicaSetList) (e : IDeploymentReplicaSetMap)
    (he : e ∈ _generateDeploymentReplicaSetMap now ds rsl) :
    e.replicaSets.Pairwise
        (fun a b => _getCreationTime now b.metadata ≤ _getCreationTime now a.metadata) ∧
    ∀ t : Int,
      e.replicaSets.filter (fun r => _getCreationTime now r.metadata == t)
        = ((rsItems rsl).filter fun r => _isReplicaSetForDeployment e.deployment r).filter
            (fun r => _getCreationTime now r.metadata == t) := by
  simp only [_generateDeploymentReplicaSetMap, List.mem_map] at he
  obtain ⟨d, hd, rfl⟩ := he
  exact ⟨sortDescBy_pairwise _ _, fun t => sortDescBy_filter _ _ t⟩

/-- C2 witness: the entry for the sample deployment with its two matching
replica sets (creation times 5 and 3) is sorted descending. -/
theorem generateDeploymentReplicaSetMap_sorted_witness :
    (⟨sampleDeployment, [rsA, rsB]⟩ : IDeploymentReplicaSetMap).replicaSets.Pairwise
      (fun a b => _getCreationTime 7 b.metadata ≤ _getCreationTime 7 a.metadata) :=
  (generateDeploymentReplicaSetMap_sorted 7 [sampleDeployment] (some ⟨[rsA, rsB]⟩)
    ⟨sampleDeployment, [rsA, rsB]⟩ (by decide)).1

/-- C6: the map has exactly one entry per deployment, in input order, and an
entry's replica-set list is empty exactly when the deployment owns no stored
replica set. -/
theorem generateDeploymentReplicaSetMap_entries (now : Int) (ds : List V1Deployment)
    (rsl : Option V1ReplicaSetList) :
    (_generateDeploymentReplicaSetMap now ds rsl).length = ds.length ∧
    ∀ i, i < ds.length →
      ∃ d e, ds[i]? = some d ∧ (_generateDeploymentReplicaSetMap now ds rsl)[i]? = some e ∧
        e.deployment = d ∧
        (e.replicaSets = [] ↔ ∀ r ∈ rsItems rsl, _isReplicaSetForDeployment d r = false) := by
  refine ⟨by simp [_generateDeploymentReplicaSetMap], fun i hi => ?_⟩
  refine ⟨ds[i],
    { deployment := ds[i]
      replicaSets := sortDescBy (fun r => _getCreationTime now r.metadata)
        ((rsItems rsl).filter fun replica => _isReplicaSetForDeployment ds[i] replica) },
    List.getElem?_eq_getElem hi, ?_, rfl, ?_⟩
  · simp only [_generateDeploymentReplicaSetMap, List.getElem?_map,
      List.getElem?_eq_getElem hi, Option.map_some']
  · rw [sortDescBy_eq_nil_iff, List.filter_eq_nil_iff]
    simp

/-- C6 witness: a single deployment owning neither stored replica set yields
one entry with an empty replica-set list. -/
theorem generateDeploymentReplicaSetMap_entries_witness :
    ∃ d e, ([sampleDeployment][0]? = some d) ∧
      ((_generateDeploymentReplicaSetMap 0 [sampleDeployment]
          (some ⟨[mkRS "zz" "r9" none none none]⟩))[0]? = some e) ∧
      e.deployment = d ∧
      (e.replicaSets = [] ↔ ∀ r ∈ rsItems (some ⟨[mkRS "zz" "r9" none none none]⟩),
        _isReplicaSetForDeployment d r = false) :=
  (generateDeploymentReplicaSetMap_entries 0 [sampleDeployment]
    (some ⟨[mkRS "zz" "r9" none none none]⟩)).2 0 (by decide)

theorem getDeploymentReplicaSetItems_length (gpt : List (String × String) → String)
    (d : V1Deployment) (rss : List V1ReplicaSet) :
    (_getDeploymentReplicaSetItems gpt d rss).length = rss.length := by
  simp [_getDeploymentReplicaSetItems]

/-- C5: in the row list built for a deployment, the pipeline text of the
row at index 0 comes from the deployment's own annotations, and of every
later row from that row's replica set's own annotations — for any choice of
the annotation-to-text function. -/
theorem deploymentReplicaSetItem_pipeline_source (gpt : List (String × String) → String)
    (d : V1Deployment) (rss : List V1ReplicaSet) (i : Nat) (h : i < rss.length) :
    ∃ row, (_getDeploymentReplicaSetItems gpt d rss)[i]? = some row ∧
      row.pipeline = some (gpt (if i = 0 then d.metadata.annotations
        else (rss.get ⟨i, h⟩).metadata.annotations)) := by
  have h1 : (rss.enum)[i]? = some (i, rss.get ⟨i, h⟩) := by
    rw [List.getElem?_enum]
    simp [List.getElem?_eq_getElem h]
  refine ⟨_getDeploymentReplicaSetItem gpt d (rss.get ⟨i, h⟩) i rss.length, ?_, rfl⟩
  simp only [_getDeploymentReplicaSetItems, List.getElem?_map, h1, Option.map_some']

/-- C5 witness: at index 1 of a two-row list the pipeline text is computed
from the replica set's annotations (`annB`, of length 2), not the
deployment's (`annA`, of length 1). -/
theorem deploymentReplicaSetItem_pipeline_source_witness :
    ∃ row, (_getDeploymentReplicaSetItems (fun l => toString l.length) sampleDeployment
        [rsA, rsB])[1]? = some row ∧ row.pipeline = some "2" := by
  obtain ⟨row, h1, h2⟩ := deploymentReplicaSetItem_pipeline_source
    (fun l => toString l.length) sampleDeployment [rsA, rsB] 1 (by decide)
  refine ⟨row, h1, ?_⟩
  rw [h2]
  rfl

/-- C7 counterexample: with an empty type-filter selection, a positive
workload size and no orphan pods, the Pods table is not rendered, although
the claim requires every resource-type table to be shown. -/
theorem showAllTables_claim_counterexample :
    (_getContent ⟨1, []⟩ []).showsOrphanPods = false ∧
    ([] : List KubeResourceType).length = 0 :=
  ⟨rfl, rfl⟩

/-- C7 (amended): when the workload size is non-zero, the Deployments,
DaemonSets and StatefulSets tables are rendered iff the selection is empty
or contains the type, and the orphan-pods table is rendered iff the
selection is empty or contains Pods and the orphan-pods list is non-empty. -/
theorem showComponent_tables_spec (st : IWorkloadsPivotState)
    (sel : List KubeResourceType) (h : st.workloadResourceSize ≠ 0) :
    ((_getContent st sel).showsDeployments = true ↔
      (sel = [] ∨ KubeResourceType.Deployments ∈ sel)) ∧
    ((_getContent st sel).showsDaemonSets = true ↔
      (sel = [] ∨ KubeResourceType.DaemonSets ∈ sel)) ∧
    ((_getContent st sel).showsStatefulSets = true ↔
      (sel = [] ∨ KubeResourceType.StatefulSets ∈ sel)) ∧
    ((_getContent st sel).showsOrphanPods = true ↔
      ((sel = [] ∨ KubeResourceType.Pods ∈ sel) ∧ st.orphanPodsList ≠ [])) := by
  have hshow : ∀ t : KubeResourceType, (_showComponent sel t = true ↔ (sel = [] ∨ t ∈ sel)) := by
    intro t
    cases sel with
    | nil => simp [_showComponent]
    | cons a as => simp [_showComponent, List.contains, List.elem_iff]
  simp only [_getContent, if_neg h]
  refine ⟨hshow _, hshow _, hshow _, ?_⟩
  rw [Bool.and_eq_true, hshow _]
  simp [List.length_pos, and_comm]

/-- C7 amended-claim witness: with only DaemonSets selected and a non-zero
workload size, the Deployments table is rendered iff Deployments is in the
selection. -/
theorem showComponent_tables_spec_witness :
    (_getContent ⟨1, []⟩ [KubeResourceType.DaemonSets]).showsDeployments = true ↔
      (([KubeResourceType.DaemonSets] : List KubeResourceType) = [] ∨
        KubeResourceType.Deployments ∈ [KubeResourceType.DaemonSets]) :=
  (showComponent_tables_spec ⟨1, []⟩ [KubeResourceType.DaemonSets] (by decide)).1

/-- C8: the zero-data placeholder is rendered iff the workload size is zero,
and in that case none of the resource tables is rendered. -/
theorem getContent_zeroData_spec (st : IWorkloadsPivotState)
    (sel : List KubeResourceType) :
    ((_getContent st sel).showsZeroData = true ↔ st.workloadResourceSize = 0) ∧
    (st.workloadResourceSize = 0 →
      (_getContent st sel).showsDeployments = false ∧
      (_getContent st sel).showsDaemonSets = false ∧
      (_getContent st sel).showsStatefulSets = false ∧
      (_getContent st sel).showsOrphanPods = false) := by
  by_cases h : st.workloadResourceSize = 0 <;> simp [_getContent, h]

/-- C8 witness: with size 0 the placeholder is shown and the Deployments
table is not. -/
theorem getContent_zeroData_spec_witness :
    (_getContent ⟨0, []⟩ []).showsDeployments = false :=
  ((getContent_zeroData_spec ⟨0, []⟩ []).2 rfl).1

theorem openDeploymentItem_eq (rsl : Option V1ReplicaSetList)
    (item : IDeploymentReplicaSetItem) :
    _openDeploymentItem rsl item = (_getSelectedReplicaSet rsl item).map
      (fun rs => ⟨rs, true, SelectedItemKeys.ReplicaSetKey⟩) := by
  unfold _openDeploymentItem
  cases _getSelectedReplicaSet rsl item <;> rfl

/-- C9: an activated row raises an event exactly when both ids are truthy
and some stored replica set matches the row's replica-set id
case-insensitively; the event then carries a matching stored replica set
and the ReplicaSet kind tag. -/
theorem openDeploymentItem_spec (rsl : Option V1ReplicaSetList)
    (item : IDeploymentReplicaSetItem) :
    (∀ ev, _openDeploymentItem rsl item = some ev →
      truthyStr item.deploymentId = true ∧ truthyStr item.replicaSetId = true ∧
      ev.selectedItemType = SelectedItemKeys.ReplicaSetKey ∧ ev.showSelectedItem = true ∧
      ev.item ∈ rsItems rsl ∧
      toLowerCase ev.item.metadata.uid = toLowerCase (item.replicaSetId.getD "")) ∧
    ((truthyStr item.deploymentId = false ∨ truthyStr item.replicaSetId = false ∨
      ∀ r ∈ rsItems rsl, toLowerCase r.metadata.uid ≠ toLowerCase (item.replicaSetId.getD "")) →
      _openDeploymentItem rsl item = none) ∧
    (truthyStr item.deploymentId = true → truthyStr item.replicaSetId = true →
      (∃ r ∈ rsItems rsl, toLowerCase r.metadata.uid = toLowerCase (item.replicaSetId.getD "")) →
      ∃ ev, _openDeploymentItem rsl item = some ev) := by
  refine ⟨?_, ?_, ?_⟩
  · intro ev hev
    rw [openDeploymentItem_eq] at hev
    cases hopt : _getSelectedReplicaSet rsl item with
    | none => rw [hopt] at hev; simp at hev
    | some rs =>
      rw [hopt, Option.map_some'] at hev
      obtain rfl := (Option.some.inj hev).symm
      by_cases hc : (truthyStr item.deploymentId && truthyStr item.replicaSetId) = true
      · rw [_getSelectedReplicaSet, if_pos hc] at hopt
        have hmem := List.mem_of_mem_head? (by rw [hopt]; exact Option.mem_some_iff.mpr rfl)
        rw [List.mem_filter] at hmem
        obtain ⟨hd, hr⟩ := (Bool.and_eq_true _ _).mp hc
        exact ⟨hd, hr, rfl, rfl, hmem.1, by simpa using hmem.2⟩
      · rw [_getSelectedReplicaSet, if_neg hc] at hopt
        cases hopt
  · intro hnone
    rw [openDeploymentItem_eq]
    rcases hnone with h1 | h2 | h3
    · simp [_getSelectedReplicaSet, h1]
    · simp [_getSelectedReplicaSet, h2]
    · have hfil : ((rsItems rsl).filter fun replica =>
          toLowerCase replica.metadata.uid == toLowerCase (item.replicaSetId.getD "")) = [] := by
        rw [List.filter_eq_nil_iff]
        intro r hrmem
        simpa using h3 r hrmem
      simp [_getSelectedReplicaSet, hfil]
  · intro hd hr hex
    obtain ⟨r, hrmem, hruid⟩ := hex
    rw [openDeploymentItem_eq]
    have hc : (truthyStr item.deploymentId && truthyStr item.replicaSetId) = true := by
      simp [hd, hr]
    cases hh : ((rsItems rsl).filter fun replica =>
        toLowerCase replica.metadata.uid == toLowerCase (item.replicaSetId.getD "")) with
    | nil =>
      rw [List.filter_eq_nil_iff] at hh
      exact absurd (by simpa using hruid) (hh r hrmem)
    | cons a t =>
      exact ⟨⟨a, true, SelectedItemKeys.ReplicaSetKey⟩, by
        simp [_getSelectedReplicaSet, hc, hh]⟩

/-- C9 sample row: both ids present, replica-set id in mixed case. -/
def sampleItem : IDeploymentReplicaSetItem :=
  { deploymentId := some "U1"
    replicaSetId := some "R1" }

/-- C9 witness: with the sample row and a store holding a replica set of uid
"r1", an event is raised. -/
theorem openDeploymentItem_spec_witness :
    ∃ ev, _openDeploymentItem (some ⟨[rsA]⟩) sampleItem = some ev :=
  (openDeploymentItem_spec (some ⟨[rsA]⟩) sampleItem).2.2 rfl rfl
    ⟨rsA, by simp [rsItems], by decide⟩
